import Mathlib

/-!
Shallow embedding of the Connect Host manager of the sphere-extension
background service worker (connect-host module), together with theorems
about its connection-approval, intent, disconnect and teardown behavior.

Modelling conventions:
- Module-level mutable state (the pending slots, the active host flag and
  the chrome.storage.local record of approved origins) becomes an explicit
  `HostState` value threaded through the operations.
- `Date.now()` is a `Nat` parameter `now`, in milliseconds.
- `new URL(url).origin` (which throws on a malformed URL) is an explicit
  parameter `parse : String -> Option String`; `none` models the thrown
  parse failure, which the source catches.
- `crypto.randomUUID()` fresh identifiers become a `nextId` counter.
- A stored promise resolver becomes an append to a resolution log: the pair
  of the pending item identifier and the delivered result. The resolver
  closure created in onConnectionRequest also persists the grant when the
  result is approved; that behavior is `runApprovalResolve`.
- `setTimeout` becomes a record of the scheduled timer (which pending item
  it was created for, and when it fires); firing a timer runs the callback
  body. The source never calls clearTimeout, so no operation removes a
  timer except its own firing.
-/

namespace SphereConnect

/-- Self-reported metadata of a requesting dApp. -/
structure DAppMetadata where
  name : String
  url : String
  description : Option String
  iconUrl : Option String
deriving DecidableEq, Repr

/-- An ephemeral connect session handle passed to intent and disconnect callbacks. -/
structure ConnectSession where
  sessionId : String
  dapp : DAppMetadata
deriving DecidableEq, Repr

/-- Permission scopes are capability tags carried as strings on the wire. -/
abbrev PermissionScope := String

/-- The identity-read capability tag. -/
def identityRead : PermissionScope := "identity:read"

/-- Entry of the approved-origins record persisted in chrome.storage.local. -/
structure ApprovedOriginEntry where
  permissions : List PermissionScope
  connectedAt : Nat
  lastSeenAt : Nat
  dapp : DAppMetadata
deriving DecidableEq, Repr

/-- The approved-origins record: an association list keyed by origin,
at most one entry per key by construction. -/
abbrev OriginStore := List (String × ApprovedOriginEntry)

/-- Lookup of an origin key, mirroring `approved[origin]` on a JS record. -/
def lookupOrigin : OriginStore → String → Option ApprovedOriginEntry
  | [], _ => none
  | (k, v) :: rest, o => if k = o then some v else lookupOrigin rest o

/-- Keyed update, mirroring `current[origin] = entry` on a JS record:
replaces the value when the key is present, appends otherwise. -/
def setOrigin : OriginStore → String → ApprovedOriginEntry → OriginStore
  | [], o, v => [(o, v)]
  | (k, w) :: rest, o, v =>
    if k = o then (o, v) :: rest else (k, w) :: setOrigin rest o v

/-- Keyed removal, mirroring `delete current[origin]` on a JS record. -/
def removeOrigin : OriginStore → String → OriginStore
  | [], _ => []
  | (k, w) :: rest, o =>
    if k = o then removeOrigin rest o else (k, w) :: removeOrigin rest o

/-- saveApprovedOrigin: read-modify-write that stores a fresh entry for the
origin with both connectedAt and lastSeenAt set to now (source lines 35-43). -/
def saveApprovedOrigin (store : OriginStore) (origin : String)
    (dapp : DAppMetadata) (permissions : List PermissionScope) (now : Nat) :
    OriginStore :=
  setOrigin store origin
    { permissions := permissions, connectedAt := now, lastSeenAt := now, dapp := dapp }

/-- revokeConnectedSite: read-modify-write that deletes the origin key
(source lines 51-55). -/
def revokeConnectedSite (store : OriginStore) (origin : String) : OriginStore :=
  removeOrigin store origin

/-- Result shape of a connection request: approved flag and granted scopes. -/
structure ConnectionResult where
  approved : Bool
  grantedPermissions : List PermissionScope
deriving DecidableEq, Repr

/-- The default-rejected connection result. -/
def rejectedConnection : ConnectionResult :=
  { approved := false, grantedPermissions := [] }

/-- Error half of an intent result. -/
structure IntentError where
  code : Int
  message : String
deriving DecidableEq, Repr

/-- Result shape of an intent: an optional result payload or an optional error. -/
structure IntentResult where
  result : Option String
  error : Option IntentError
deriving DecidableEq, Repr

/-- The user-rejected intent result delivered on timeout and teardown. -/
def userRejectedIntent : IntentResult :=
  { result := none, error := some { code := 4001, message := "User rejected" } }

/-- Public data of a pending dApp connection approval (the resolver closure
is modelled by `runApprovalResolve`). -/
structure PendingConnectApproval where
  id : Nat
  dapp : DAppMetadata
  requestedPermissions : List PermissionScope
deriving DecidableEq, Repr

/-- Public data of a pending intent (the resolver is the bare promise
resolver, modelled by `runIntentResolve`). -/
structure PendingConnectIntent where
  id : Nat
  action : String
  params : List (String × String)
  session : ConnectSession
deriving DecidableEq, Repr

/-- A timer scheduled with setTimeout in onConnectionRequest: `createdFor`
is the identifier of the pending approval in whose scope it was created
(ghost data: the callback body never reads it), `firesAt` its deadline. -/
structure ApprovalTimer where
  createdFor : Nat
  firesAt : Nat
deriving DecidableEq, Repr

/-- A timer scheduled with setTimeout in onIntent. -/
structure IntentTimer where
  createdFor : Nat
  firesAt : Nat
deriving DecidableEq, Repr

/-- The module-level mutable state of the connect-host module, plus the
observables needed to state the claims: the count of popup openings (UI
escalations) and the logs of delivered resolutions. -/
structure HostState where
  active : Bool
  store : OriginStore
  pendingApproval : Option PendingConnectApproval
  pendingIntent : Option PendingConnectIntent
  approvalTimers : List ApprovalTimer
  intentTimers : List IntentTimer
  nextId : Nat
  popupOpens : Nat
  approvalLog : List (Nat × ConnectionResult)
  intentLog : List (Nat × IntentResult)
deriving DecidableEq, Repr

/-- The 120 second approval timeout, in milliseconds. -/
def approvalTimeoutMs : Nat := 120000

/-- The 300 second intent timeout, in milliseconds. -/
def intentTimeoutMs : Nat := 300000

/-- The resolver closure stored in a PendingConnectApproval (source lines
158-169): when the result is approved, derive the origin from the captured
dapp url and persist the granted permissions (a parse failure is caught and
ignored); then deliver the result to the waiting promise. -/
def runApprovalResolve (parse : String → Option String) (now : Nat)
    (st : HostState) (pa : PendingConnectApproval) (result : ConnectionResult) :
    HostState :=
  let st1 :=
    if result.approved then
      match parse pa.dapp.url with
      | some origin =>
        { st with store := saveApprovedOrigin st.store origin pa.dapp result.grantedPermissions now }
      | none => st
    else st
  { st1 with approvalLog := st1.approvalLog ++ [(pa.id, result)] }

/-- The resolver of a PendingConnectIntent: deliver the result to the
waiting promise. -/
def runIntentResolve (st : HostState) (pi : PendingConnectIntent)
    (result : IntentResult) : HostState :=
  { st with intentLog := st.intentLog ++ [(pi.id, result)] }

/-- onConnectionRequest (source lines 129-180). Returns the updated state
and `some result` when the request resolves immediately (approved fast path
or silent fast fail), `none` when a pending approval was created and the
promise is left unresolved. -/
def onConnectionRequest (parse : String → Option String) (now : Nat)
    (st : HostState) (dapp : DAppMetadata)
    (requestedPermissions : List PermissionScope) (silent : Bool) :
    HostState × Option ConnectionResult :=
  let fastPath : Option (HostState × Option ConnectionResult) :=
    match parse dapp.url with
    | some origin =>
      match lookupOrigin st.store origin with
      | some entry =>
        some
          ({ st with store := setOrigin st.store origin { entry with lastSeenAt := now } },
           some { approved := true, grantedPermissions := entry.permissions })
      | none => none
    | none => none
  match fastPath with
  | some out => out
  | none =>
    if silent then
      (st, some rejectedConnection)
    else
      let pa : PendingConnectApproval :=
        { id := st.nextId, dapp := dapp, requestedPermissions := requestedPermissions }
      ({ st with
          popupOpens := st.popupOpens + 1,
          pendingApproval := some pa,
          nextId := st.nextId + 1,
          approvalTimers :=
            st.approvalTimers ++ [{ createdFor := st.nextId, firesAt := now + approvalTimeoutMs }] },
       none)

/-- The body of the approval timeout callback (source lines 173-178): if the
approval slot is occupied, resolve its current occupant with the rejected
default and clear the slot; the callback never compares identifiers. The
fired timer is consumed from the schedule. -/
def fireApprovalTimer (parse : String → Option String) (now : Nat)
    (st : HostState) (t : ApprovalTimer) : HostState :=
  let st1 := { st with approvalTimers := st.approvalTimers.erase t }
  match st1.pendingApproval with
  | some pa =>
    { runApprovalResolve parse now st1 pa rejectedConnection with pendingApproval := none }
  | none => st1

/-- onIntent (source lines 192-213): open the popup, overwrite the intent
slot with a fresh pending intent and schedule its 300 second timer; the
promise is left unresolved (result `none`). -/
def onIntent (now : Nat) (st : HostState) (action : String)
    (params : List (String × String)) (session : ConnectSession) :
    HostState × Option IntentResult :=
  let pi : PendingConnectIntent :=
    { id := st.nextId, action := action, params := params, session := session }
  ({ st with
      popupOpens := st.popupOpens + 1,
      pendingIntent := some pi,
      nextId := st.nextId + 1,
      intentTimers :=
        st.intentTimers ++ [{ createdFor := st.nextId, firesAt := now + intentTimeoutMs }] },
   none)

/-- The body of the intent timeout callback (source lines 206-211). -/
def fireIntentTimer (st : HostState) (t : IntentTimer) : HostState :=
  let st1 := { st with intentTimers := st.intentTimers.erase t }
  match st1.pendingIntent with
  | some pi =>
    { runIntentResolve st1 pi userRejectedIntent with pendingIntent := none }
  | none => st1

/-- onDisconnect (source lines 182-190): derive the origin from the session
dApp url and revoke it; a parse failure is caught and ignored. -/
def onDisconnect (parse : String → Option String) (st : HostState)
    (session : ConnectSession) : HostState :=
  match parse session.dapp.url with
  | some origin => { st with store := revokeConnectedSite st.store origin }
  | none => st

/-- destroyConnectHost (source lines 218-231): deactivate the host, resolve
a pending approval with the rejected default and a pending intent with the
user-rejected error, and clear both slots. No timer is cancelled: the
source never stores a setTimeout handle and never calls clearTimeout. -/
def destroyConnectHost (parse : String → Option String) (now : Nat)
    (st : HostState) : HostState :=
  let st1 := { st with active := false }
  let st2 :=
    match st1.pendingApproval with
    | some pa =>
      { runApprovalResolve parse now st1 pa rejectedConnection with pendingApproval := none }
    | none => st1
  match st2.pendingIntent with
  | some pi =>
    { runIntentResolve st2 pi userRejectedIntent with pendingIntent := none }
  | none => st2

/-- resolveConnectApproval (source lines 245-254): a no-op returning false
when the slot is empty or holds a different identifier; otherwise run the
stored resolver, clear the slot and return true. -/
def resolveConnectApproval (parse : String → Option String) (now : Nat)
    (st : HostState) (id : Nat) (approved : Bool)
    (grantedPermissions : List PermissionScope) : HostState × Bool :=
  match st.pendingApproval with
  | none => (st, false)
  | some pa =>
    if pa.id = id then
      ({ runApprovalResolve parse now st pa
           { approved := approved, grantedPermissions := grantedPermissions } with
         pendingApproval := none },
       true)
    else (st, false)

/-- resolveConnectIntent (source lines 264-272). -/
def resolveConnectIntent (st : HostState) (id : Nat) (result : IntentResult) :
    HostState × Bool :=
  match st.pendingIntent with
  | none => (st, false)
  | some pi =>
    if pi.id = id then
      ({ runIntentResolve st pi result with pendingIntent := none }, true)
    else (st, false)

/-! ### Association-list lemmas for the origin store -/

theorem lookupOrigin_setOrigin_self (s : OriginStore) (o : String)
    (v : ApprovedOriginEntry) : lookupOrigin (setOrigin s o v) o = some v := by
  induction s with
  | nil => simp [setOrigin, lookupOrigin]
  | cons kv rest ih =>
    obtain ⟨k, w⟩ := kv
    by_cases hk : k = o
    · simp [setOrigin, hk, lookupOrigin]
    · simp [setOrigin, hk, lookupOrigin, ih]

theorem lookupOrigin_setOrigin_other (s : OriginStore) (o k : String)
    (v : ApprovedOriginEntry) (hk : k ≠ o) :
    lookupOrigin (setOrigin s o v) k = lookupOrigin s k := by
  have ho : o ≠ k := Ne.symm hk
  induction s with
  | nil => simp [setOrigin, lookupOrigin, ho]
  | cons kv rest ih =>
    obtain ⟨k1, w⟩ := kv
    by_cases h1 : k1 = o
    · subst h1
      simp [setOrigin, lookupOrigin, ho]
    · simp [setOrigin, h1, lookupOrigin, ih]

theorem lookupOrigin_removeOrigin_self (s : OriginStore) (o : String) :
    lookupOrigin (removeOrigin s o) o = none := by
  induction s with
  | nil => simp [removeOrigin, lookupOrigin]
  | cons kv rest ih =>
    obtain ⟨k, w⟩ := kv
    by_cases hk : k = o
    · simp [removeOrigin, hk, ih]
    · simp [removeOrigin, hk, lookupOrigin, ih]

theorem lookupOrigin_removeOrigin_other (s : OriginStore) (o k : String)
    (hk : k ≠ o) : lookupOrigin (removeOrigin s o) k = lookupOrigin s k := by
  have ho : o ≠ k := Ne.symm hk
  induction s with
  | nil => simp [removeOrigin]
  | cons kv rest ih =>
    obtain ⟨k1, w⟩ := kv
    by_cases h1 : k1 = o
    · subst h1
      simp [removeOrigin, lookupOrigin, ho, ih]
    · simp [removeOrigin, h1, lookupOrigin, ih]

theorem removeOrigin_absent (s : OriginStore) (o : String)
    (h : lookupOrigin s o = none) : removeOrigin s o = s := by
  induction s with
  | nil => simp [removeOrigin]
  | cons kv rest ih =>
    obtain ⟨k, w⟩ := kv
    by_cases hk : k = o
    · simp [lookupOrigin, hk] at h
    · simp [lookupOrigin, hk] at h
      simp [removeOrigin, hk, ih h]

/-! ### Concrete data used by witnesses and counterexamples -/

/-- A concrete origin-derivation function: every url is its own origin
except the one malformed url, which fails to parse. -/
def demoParse : String → Option String :=
  fun s => if s = "notaurl" then none else some s

/-- A concrete well-formed dApp. -/
def demoDapp1 : DAppMetadata :=
  { name := "Demo One", url := "https://one.example", description := none, iconUrl := none }

/-- A second concrete well-formed dApp with a different origin. -/
def demoDapp2 : DAppMetadata :=
  { name := "Demo Two", url := "https://two.example", description := none, iconUrl := none }

/-- A dApp whose declared url fails to parse. -/
def demoBadDapp : DAppMetadata :=
  { name := "Bad", url := "notaurl", description := none, iconUrl := none }

/-- A concrete approved-origins entry. -/
def demoEntry : ApprovedOriginEntry :=
  { permissions := [identityRead, "balance:read"], connectedAt := 5, lastSeenAt := 7,
    dapp := demoDapp1 }

/-- The host state right after initialization: active, empty store, empty
slots, no timers, nothing resolved yet. -/
def emptyHost : HostState :=
  { active := true, store := [], pendingApproval := none, pendingIntent := none,
    approvalTimers := [], intentTimers := [], nextId := 0, popupOpens := 0,
    approvalLog := [], intentLog := [] }

/-- A concrete session for demoDapp1. -/
def demoSession1 : ConnectSession := { sessionId := "s1", dapp := demoDapp1 }

/-! ### Claim theorems -/

/-- C4. Approved fast path: when the origin of the dApp parses and the
store holds an entry for it, onConnectionRequest (with either silent flag)
immediately returns approved with the stored permissions, sets the entry
lastSeenAt to now (which is at least its prior value under a monotone
clock), leaves the entry permissions, connectedAt and dapp unchanged and
every other origin untouched, opens no popup and creates no pending item. -/
theorem connectionRequest_approved_fast_path
    (parse : String → Option String) (now : Nat) (st : HostState)
    (dapp : DAppMetadata) (reqPerms : List PermissionScope) (silent : Bool)
    (origin : String) (entry : ApprovedOriginEntry)
    (hparse : parse dapp.url = some origin)
    (hentry : lookupOrigin st.store origin = some entry)
    (hclock : entry.lastSeenAt ≤ now) :
    (onConnectionRequest parse now st dapp reqPerms silent).2 =
      some { approved := true, grantedPermissions := entry.permissions } ∧
    lookupOrigin (onConnectionRequest parse now st dapp reqPerms silent).1.store origin =
      some { permissions := entry.permissions, connectedAt := entry.connectedAt,
             lastSeenAt := now, dapp := entry.dapp } ∧
    entry.lastSeenAt ≤ now ∧
    (∀ k, k ≠ origin →
      lookupOrigin (onConnectionRequest parse now st dapp reqPerms silent).1.store k =
        lookupOrigin st.store k) ∧
    (onConnectionRequest parse now st dapp reqPerms silent).1.popupOpens = st.popupOpens ∧
    (onConnectionRequest parse now st dapp reqPerms silent).1.pendingApproval = st.pendingApproval ∧
    (onConnectionRequest parse now st dapp reqPerms silent).1.pendingIntent = st.pendingIntent ∧
    (onConnectionRequest parse now st dapp reqPerms silent).1.approvalTimers = st.approvalTimers := by
  refine ⟨?_, ?_, hclock, ?_, ?_, ?_, ?_, ?_⟩ <;>
    first
    | (intro k hk
       simp [onConnectionRequest, hparse, hentry, lookupOrigin_setOrigin_other _ _ _ _ hk])
    | simp [onConnectionRequest, hparse, hentry, lookupOrigin_setOrigin_self]

/-- Witness for C4 at a concrete input: the stored entry for the origin of
demoDapp1 is returned approved and its lastSeenAt moves from 7 to 100. -/
theorem connectionRequest_approved_fast_path_witness :
    demoParse demoDapp1.url = some "https://one.example" ∧
    lookupOrigin [("https://one.example", demoEntry)] "https://one.example" = some demoEntry ∧
    demoEntry.lastSeenAt ≤ 100 ∧
    ((onConnectionRequest demoParse 100
        { emptyHost with store := [("https://one.example", demoEntry)] }
        demoDapp1 [] true).2 =
      some { approved := true, grantedPermissions := demoEntry.permissions }) := by
  have h := connectionRequest_approved_fast_path demoParse 100
    { emptyHost with store := [("https://one.example", demoEntry)] }
    demoDapp1 [] true "https://one.example" demoEntry
    (by decide) (by decide) (by decide)
  exact ⟨by decide, by decide, by decide, h.1⟩

/-- C5. Silent fast fail: a silent connection request whose origin has no
store entry (including an unparseable url) immediately returns the rejected
default and leaves the entire host state unchanged: no popup, no pending
approval, no timer, no store change. -/
theorem connectionRequest_silent_fast_fail
    (parse : String → Option String) (now : Nat) (st : HostState)
    (dapp : DAppMetadata) (reqPerms : List PermissionScope)
    (hA : ∀ o, parse dapp.url = some o → lookupOrigin st.store o = none) :
    onConnectionRequest parse now st dapp reqPerms true =
      (st, some { approved := false, grantedPermissions := [] }) := by
  cases hp : parse dapp.url with
  | none => simp [onConnectionRequest, hp, rejectedConnection]
  | some o =>
    have := hA o hp
    simp [onConnectionRequest, hp, this, rejectedConnection]

/-- Witness for C5 at a concrete input: a silent request from demoDapp2
against a store holding only the origin of demoDapp1 is rejected with the
state returned untouched. -/
theorem connectionRequest_silent_fast_fail_witness :
    (∀ o, demoParse demoDapp2.url = some o →
      lookupOrigin [("https://one.example", demoEntry)] o = none) ∧
    onConnectionRequest demoParse 100
        { emptyHost with store := [("https://one.example", demoEntry)] }
        demoDapp2 [] true =
      ({ emptyHost with store := [("https://one.example", demoEntry)] },
       some { approved := false, grantedPermissions := [] }) := by
  have hA : ∀ o, demoParse demoDapp2.url = some o →
      lookupOrigin [("https://one.example", demoEntry)] o = none := by
    intro o ho
    have : o = "https://two.example" := by
      simp [demoParse, demoDapp2] at ho
      exact ho.symm
    subst this
    decide
  exact ⟨hA, connectionRequest_silent_fast_fail demoParse 100
    { emptyHost with store := [("https://one.example", demoEntry)] }
    demoDapp2 [] hA⟩

/-- C9. Malformed origin: when the declared url of the dApp fails to parse,
onConnectionRequest never throws (the embedding is a total function whose
source catch-block maps the parse failure to the no-entry path) and behaves
exactly as for an origin without a stored entry: a silent request is
rejected immediately with the state unchanged, and a non-silent request
escalates by opening the popup and creating a fresh pending approval with
its 120 second timer. -/
theorem connectionRequest_malformed_origin
    (parse : String → Option String) (now : Nat) (st : HostState)
    (dapp : DAppMetadata) (reqPerms : List PermissionScope)
    (hparse : parse dapp.url = none) :
    onConnectionRequest parse now st dapp reqPerms true =
      (st, some { approved := false, grantedPermissions := [] }) ∧
    onConnectionRequest parse now st dapp reqPerms false =
      ({ st with
          popupOpens := st.popupOpens + 1,
          pendingApproval :=
            some { id := st.nextId, dapp := dapp, requestedPermissions := reqPerms },
          nextId := st.nextId + 1,
          approvalTimers :=
            st.approvalTimers ++ [{ createdFor := st.nextId, firesAt := now + approvalTimeoutMs }] },
       none) := by
  constructor
  · simp [onConnectionRequest, hparse, rejectedConnection]
  · simp [onConnectionRequest, hparse]

/-- Witness for C9 at a concrete input: the dApp with the unparseable url
is silently rejected from the fresh host state, and non-silently escalated. -/
theorem connectionRequest_malformed_origin_witness :
    demoParse demoBadDapp.url = none ∧
    onConnectionRequest demoParse 50 emptyHost demoBadDapp [identityRead] true =
      (emptyHost, some { approved := false, grantedPermissions := [] }) ∧
    (onConnectionRequest demoParse 50 emptyHost demoBadDapp [identityRead] false).1.pendingApproval =
      some { id := 0, dapp := demoBadDapp, requestedPermissions := [identityRead] } := by
  have h := connectionRequest_malformed_origin demoParse 50 emptyHost demoBadDapp
    [identityRead] (by decide)
  refine ⟨by decide, h.1, ?_⟩
  rw [h.2]
  rfl

/-- C10. Disconnect revokes: onDisconnect removes the entry of the origin
derived from the session dApp url (leaving every other origin untouched and
the rest of the state unchanged), a subsequent silent connection request
for that origin is rejected, and disconnecting when the origin has no entry
leaves the state exactly as it was. -/
theorem onDisconnect_revokes
    (parse : String → Option String) (st : HostState) (session : ConnectSession)
    (origin : String)
    (hparse : parse session.dapp.url = some origin) :
    lookupOrigin (onDisconnect parse st session).store origin = none ∧
    (∀ k, k ≠ origin →
      lookupOrigin (onDisconnect parse st session).store k = lookupOrigin st.store k) ∧
    (onDisconnect parse st session).pendingApproval = st.pendingApproval ∧
    (onDisconnect parse st session).pendingIntent = st.pendingIntent ∧
    (onDisconnect parse st session).popupOpens = st.popupOpens ∧
    (∀ now dapp2 reqPerms, parse dapp2.url = some origin →
      onConnectionRequest parse now (onDisconnect parse st session) dapp2 reqPerms true =
        (onDisconnect parse st session,
         some { approved := false, grantedPermissions := [] })) ∧
    (lookupOrigin st.store origin = none → onDisconnect parse st session = st) := by
  have hstore : (onDisconnect parse st session).store = removeOrigin st.store origin := by
    simp [onDisconnect, hparse, revokeConnectedSite]
  have hnone : lookupOrigin (onDisconnect parse st session).store origin = none := by
    rw [hstore]; exact lookupOrigin_removeOrigin_self st.store origin
  refine ⟨hnone, ?_, ?_, ?_, ?_, ?_, ?_⟩
  · intro k hk
    rw [hstore]
    exact lookupOrigin_removeOrigin_other st.store origin k hk
  · simp [onDisconnect, hparse]
  · simp [onDisconnect, hparse]
  · simp [onDisconnect, hparse]
  · intro now dapp2 reqPerms hp2
    simp [onConnectionRequest, hp2, hnone, rejectedConnection]
  · intro habsent
    have : removeOrigin st.store origin = st.store :=
      removeOrigin_absent st.store origin habsent
    simp [onDisconnect, hparse, revokeConnectedSite, this]

/-- Witness for C10 at a concrete input: disconnecting demoSession1 removes
the stored grant for its origin, and the following silent request for that
origin is rejected. -/
theorem onDisconnect_revokes_witness :
    demoParse demoSession1.dapp.url = some "https://one.example" ∧
    lookupOrigin
      (onDisconnect demoParse
        { emptyHost with store := [("https://one.example", demoEntry)] }
        demoSession1).store "https://one.example" = none ∧
    onConnectionRequest demoParse 200
        (onDisconnect demoParse
          { emptyHost with store := [("https://one.example", demoEntry)] }
          demoSession1)
        demoDapp1 [] true =
      (onDisconnect demoParse
        { emptyHost with store := [("https://one.example", demoEntry)] }
        demoSession1,
       some { approved := false, grantedPermissions := [] }) := by
  have h := onDisconnect_revokes demoParse
    { emptyHost with store := [("https://one.example", demoEntry)] }
    demoSession1 "https://one.example" (by decide)
  exact ⟨by decide, h.1, h.2.2.2.2.2.1 200 demoDapp1 [] (by decide)⟩

/-! ### Helper lemmas shared by several claims -/

/-- How many resolutions a log records for a given identifier. -/
def countResolutions {α : Type} (log : List (Nat × α)) (i : Nat) : Nat :=
  (log.filter (fun e => e.1 == i)).length

theorem countResolutions_append {α : Type} (log : List (Nat × α)) (i : Nat)
    (r : α) : countResolutions (log ++ [(i, r)]) i = countResolutions log i + 1 := by
  simp [countResolutions]

/-- A non-silent connection request for an origin without a store entry
(or with an unparseable url) opens the popup and parks a fresh pending
approval with its 120 second timer, resolving nothing yet. -/
theorem onConnectionRequest_pending
    (parse : String → Option String) (now : Nat) (st : HostState)
    (dapp : DAppMetadata) (reqPerms : List PermissionScope)
    (hA : ∀ o, parse dapp.url = some o → lookupOrigin st.store o = none) :
    onConnectionRequest parse now st dapp reqPerms false =
      ({ st with
          popupOpens := st.popupOpens + 1,
          pendingApproval :=
            some { id := st.nextId, dapp := dapp, requestedPermissions := reqPerms },
          nextId := st.nextId + 1,
          approvalTimers :=
            st.approvalTimers ++ [{ createdFor := st.nextId, firesAt := now + approvalTimeoutMs }] },
       none) := by
  cases hp : parse dapp.url with
  | none => simp [onConnectionRequest, hp]
  | some o => simp [onConnectionRequest, hp, hA o hp]

/-- Firing the approval timeout callback while the slot is occupied
resolves the occupant with the rejected default (persisting nothing) and
clears the slot, whichever pending item the fired timer was created for. -/
theorem fireApprovalTimer_occupied
    (parse : String → Option String) (now : Nat) (st : HostState)
    (t : ApprovalTimer) (pa : PendingConnectApproval)
    (h : st.pendingApproval = some pa) :
    fireApprovalTimer parse now st t =
      { st with
          approvalTimers := st.approvalTimers.erase t,
          pendingApproval := none,
          approvalLog := st.approvalLog ++ [(pa.id, rejectedConnection)] } := by
  simp [fireApprovalTimer, h, runApprovalResolve, rejectedConnection]

/-- Firing the intent timeout callback while the slot is occupied resolves
the occupant with the user-rejected error and clears the slot. -/
theorem fireIntentTimer_occupied (st : HostState) (t : IntentTimer)
    (pi : PendingConnectIntent) (h : st.pendingIntent = some pi) :
    fireIntentTimer st t =
      { st with
          intentTimers := st.intentTimers.erase t,
          pendingIntent := none,
          intentLog := st.intentLog ++ [(pi.id, userRejectedIntent)] } := by
  simp [fireIntentTimer, h, runIntentResolve]

/-- An explicit approval resolution against an empty slot is a no-op
returning false. -/
theorem resolveConnectApproval_empty
    (parse : String → Option String) (now : Nat) (st : HostState)
    (id : Nat) (approved : Bool) (granted : List PermissionScope)
    (h : st.pendingApproval = none) :
    resolveConnectApproval parse now st id approved granted = (st, false) := by
  simp [resolveConnectApproval, h]

/-- An explicit intent resolution against an empty slot is a no-op
returning false. -/
theorem resolveConnectIntent_empty (st : HostState) (id : Nat)
    (r : IntentResult) (h : st.pendingIntent = none) :
    resolveConnectIntent st id r = (st, false) := by
  simp [resolveConnectIntent, h]

/-- C6. Timeout defaults: starting from a state whose fresh identifier does
not yet occur in the resolution logs, a non-silent connection request for
an unapproved origin schedules its timer at now plus 120 seconds, and when
that timeout callback runs the pending approval is resolved with the
rejected default exactly once, the slot is cleared, and a late explicit
resolveConnectApproval with the same identifier returns false and changes
nothing; symmetrically an intent schedules its timer at now plus 300
seconds and on expiry is resolved with the user-rejected error exactly
once, after which a late resolveConnectIntent returns false. -/
theorem pending_timeout_default
    (parse : String → Option String) (now : Nat) (st : HostState)
    (dapp : DAppMetadata) (reqPerms : List PermissionScope)
    (hA : ∀ o, parse dapp.url = some o → lookupOrigin st.store o = none)
    (hfreshA : countResolutions st.approvalLog st.nextId = 0)
    (hfreshI : countResolutions st.intentLog st.nextId = 0) :
    ((onConnectionRequest parse now st dapp reqPerms false).1.approvalTimers =
      st.approvalTimers ++ [{ createdFor := st.nextId, firesAt := now + approvalTimeoutMs }]) ∧
    (∀ t now2, now + approvalTimeoutMs ≤ now2 →
      (fireApprovalTimer parse now2
          (onConnectionRequest parse now st dapp reqPerms false).1 t).approvalLog =
        st.approvalLog ++ [(st.nextId, { approved := false, grantedPermissions := [] })] ∧
      countResolutions
        (fireApprovalTimer parse now2
          (onConnectionRequest parse now st dapp reqPerms false).1 t).approvalLog
        st.nextId = 1 ∧
      (fireApprovalTimer parse now2
        (onConnectionRequest parse now st dapp reqPerms false).1 t).pendingApproval = none ∧
      (∀ now3 ap g,
        resolveConnectApproval parse now3
            (fireApprovalTimer parse now2
              (onConnectionRequest parse now st dapp reqPerms false).1 t)
            st.nextId ap g =
          (fireApprovalTimer parse now2
            (onConnectionRequest parse now st dapp reqPerms false).1 t, false))) ∧
    (∀ action params session,
      (onIntent now st action params session).1.intentTimers =
        st.intentTimers ++ [{ createdFor := st.nextId, firesAt := now + intentTimeoutMs }] ∧
      (∀ u now2, now + intentTimeoutMs ≤ now2 →
        (fireIntentTimer (onIntent now st action params session).1 u).intentLog =
          st.intentLog ++ [(st.nextId, userRejectedIntent)] ∧
        countResolutions
          (fireIntentTimer (onIntent now st action params session).1 u).intentLog
          st.nextId = 1 ∧
        (fireIntentTimer (onIntent now st action params session).1 u).pendingIntent = none ∧
        (∀ r, resolveConnectIntent
            (fireIntentTimer (onIntent now st action params session).1 u) st.nextId r =
          (fireIntentTimer (onIntent now st action params session).1 u, false)))) := by
  have hreq := onConnectionRequest_pending parse now st dapp reqPerms hA
  refine ⟨?_, ?_, ?_⟩
  · rw [hreq]
  · intro t now2 _
    have hocc : (onConnectionRequest parse now st dapp reqPerms false).1.pendingApproval =
        some { id := st.nextId, dapp := dapp, requestedPermissions := reqPerms } := by
      rw [hreq]
    have hfire := fireApprovalTimer_occupied parse now2
      (onConnectionRequest parse now st dapp reqPerms false).1 t
      { id := st.nextId, dapp := dapp, requestedPermissions := reqPerms } hocc
    have hlog : (onConnectionRequest parse now st dapp reqPerms false).1.approvalLog =
        st.approvalLog := by rw [hreq]
    refine ⟨?_, ?_, ?_, ?_⟩
    · rw [hfire]
      simp [hlog, rejectedConnection]
    · rw [hfire]
      simp only [hlog, rejectedConnection]
      rw [countResolutions_append]
      rw [hfreshA]
    · rw [hfire]
    · intro now3 ap g
      apply resolveConnectApproval_empty
      rw [hfire]
  · intro action params session
    have hint : (onIntent now st action params session).1 =
        { st with
            popupOpens := st.popupOpens + 1,
            pendingIntent :=
              some { id := st.nextId, action := action, params := params, session := session },
            nextId := st.nextId + 1,
            intentTimers :=
              st.intentTimers ++ [{ createdFor := st.nextId, firesAt := now + intentTimeoutMs }] } := by
      simp [onIntent]
    refine ⟨by rw [hint], ?_⟩
    intro u now2 _
    have hocc : (onIntent now st action params session).1.pendingIntent =
        some { id := st.nextId, action := action, params := params, session := session } := by
      rw [hint]
    have hfire := fireIntentTimer_occupied (onIntent now st action params session).1 u
      { id := st.nextId, action := action, params := params, session := session } hocc
    have hlog : (onIntent now st action params session).1.intentLog = st.intentLog := by
      rw [hint]
    refine ⟨?_, ?_, ?_, ?_⟩
    · rw [hfire]
      simp [hlog]
    · rw [hfire]
      simp only [hlog]
      rw [countResolutions_append]
      rw [hfreshI]
    · rw [hfire]
    · intro r
      apply resolveConnectIntent_empty
      rw [hfire]

/-- Witness for C6 at a concrete input: from the fresh host state, the
request of demoDapp1 at time 100 times out at 120100 with exactly one
rejected resolution for identifier 0 and a late explicit resolution
returns false. -/
theorem pending_timeout_default_witness :
    countResolutions emptyHost.approvalLog emptyHost.nextId = 0 ∧
    100 + approvalTimeoutMs ≤ 120100 ∧
    (fireApprovalTimer demoParse 120100
        (onConnectionRequest demoParse 100 emptyHost demoDapp1 [identityRead] false).1
        { createdFor := 0, firesAt := 120100 }).approvalLog =
      emptyHost.approvalLog ++ [(emptyHost.nextId, { approved := false, grantedPermissions := [] })] ∧
    (∀ now3 ap g,
      resolveConnectApproval demoParse now3
          (fireApprovalTimer demoParse 120100
            (onConnectionRequest demoParse 100 emptyHost demoDapp1 [identityRead] false).1
            { createdFor := 0, firesAt := 120100 })
          emptyHost.nextId ap g =
        (fireApprovalTimer demoParse 120100
          (onConnectionRequest demoParse 100 emptyHost demoDapp1 [identityRead] false).1
          { createdFor := 0, firesAt := 120100 }, false)) := by
  have hA : ∀ o, demoParse demoDapp1.url = some o →
      lookupOrigin emptyHost.store o = none := by
    intro o _
    rfl
  have h := pending_timeout_default demoParse 100 emptyHost demoDapp1 [identityRead]
    hA (by decide) (by decide)
  have h2 := h.2.1 { createdFor := 0, firesAt := 120100 } 120100 (by decide)
  exact ⟨by decide, by decide, h2.1, h2.2.2.2⟩

/-- Normal form of destroyConnectHost: deactivate, clear both slots,
deliver the default rejections to whatever occupied them, touch nothing
else — in particular the timer schedules survive. -/
theorem destroyConnectHost_eq (parse : String → Option String) (now : Nat)
    (st : HostState) :
    destroyConnectHost parse now st =
      { st with
          active := false,
          pendingApproval := none,
          pendingIntent := none,
          approvalLog :=
            st.approvalLog ++
              (st.pendingApproval.map (fun pa => (pa.id, rejectedConnection))).toList,
          intentLog :=
            st.intentLog ++
              (st.pendingIntent.map (fun pi => (pi.id, userRejectedIntent))).toList } := by
  cases hpa : st.pendingApproval with
  | none =>
    cases hpi : st.pendingIntent with
    | none => simp [destroyConnectHost, hpa, hpi]
    | some pi => simp [destroyConnectHost, hpa, hpi, runIntentResolve]
  | some pa =>
    cases hpi : st.pendingIntent with
    | none =>
      simp [destroyConnectHost, hpa, hpi, runApprovalResolve, rejectedConnection]
    | some pi =>
      simp [destroyConnectHost, hpa, hpi, runApprovalResolve, runIntentResolve,
        rejectedConnection]

/-- Counterexample for C7: destroy does not cancel the timers. The source
never stores a setTimeout handle and never calls clearTimeout, so after
destroying a host holding the pending approval of demoDapp1 the 120 second
timer created for it is still scheduled. -/
theorem destroy_timer_cancellation_counterexample :
    (onConnectionRequest demoParse 100 emptyHost demoDapp1 [identityRead] false).1.approvalTimers =
      [{ createdFor := 0, firesAt := 120100 }] ∧
    (destroyConnectHost demoParse 150
        (onConnectionRequest demoParse 100 emptyHost demoDapp1 [identityRead] false).1).pendingApproval =
      none ∧
    (destroyConnectHost demoParse 150
        (onConnectionRequest demoParse 100 emptyHost demoDapp1 [identityRead] false).1).approvalTimers =
      [{ createdFor := 0, firesAt := 120100 }] := by
  decide

/-- C7 amended. destroyConnectHost resolves an existing pending approval
with the rejected default and an existing pending intent with the
user-rejected error, clears both slots, leaves the approved-origins store
untouched, and calling it twice in a row is the same as calling it once
(no error in the embedding, which is total); however it does not cancel
the timers — both schedules survive teardown, and a stale timer firing
after teardown only consumes itself while the slot stays empty. -/
theorem destroy_teardown (parse : String → Option String) (now : Nat)
    (st : HostState) :
    (destroyConnectHost parse now st).pendingApproval = none ∧
    (destroyConnectHost parse now st).pendingIntent = none ∧
    (destroyConnectHost parse now st).store = st.store ∧
    (destroyConnectHost parse now st).approvalTimers = st.approvalTimers ∧
    (destroyConnectHost parse now st).intentTimers = st.intentTimers ∧
    (∀ pa, st.pendingApproval = some pa →
      (destroyConnectHost parse now st).approvalLog =
        st.approvalLog ++ [(pa.id, rejectedConnection)]) ∧
    (∀ pi, st.pendingIntent = some pi →
      (destroyConnectHost parse now st).intentLog =
        st.intentLog ++ [(pi.id, userRejectedIntent)]) ∧
    (∀ now2, destroyConnectHost parse now2 (destroyConnectHost parse now st) =
      destroyConnectHost parse now st) ∧
    (∀ now2 t, fireApprovalTimer parse now2 (destroyConnectHost parse now st) t =
      { destroyConnectHost parse now st with
          approvalTimers := (destroyConnectHost parse now st).approvalTimers.erase t }) ∧
    (∀ u, fireIntentTimer (destroyConnectHost parse now st) u =
      { destroyConnectHost parse now st with
          intentTimers := (destroyConnectHost parse now st).intentTimers.erase u }) := by
  have hD := destroyConnectHost_eq parse now st
  refine ⟨by rw [hD], by rw [hD], by rw [hD], by rw [hD], by rw [hD], ?_, ?_, ?_, ?_, ?_⟩
  · intro pa hpa
    rw [hD]
    simp [hpa]
  · intro pi hpi
    rw [hD]
    simp [hpi]
  · intro now2
    rw [destroyConnectHost_eq parse now2 (destroyConnectHost parse now st), hD]
    simp
  · intro now2 t
    rw [fireApprovalTimer]
    rw [hD]
  · intro u
    rw [fireIntentTimer]
    rw [hD]

/-- Witness for C7 at a concrete input: destroying a host with both slots
occupied delivers the two default rejections, keeps the store, and a second
destroy changes nothing further. -/
theorem destroy_teardown_witness :
    ({ emptyHost with
        store := [("https://one.example", demoEntry)],
        pendingApproval :=
          some { id := 0, dapp := demoDapp2, requestedPermissions := [identityRead] },
        pendingIntent :=
          some { id := 1, action := "send", params := [], session := demoSession1 },
        nextId := 2 } : HostState).pendingApproval =
      some { id := 0, dapp := demoDapp2, requestedPermissions := [identityRead] } ∧
    (destroyConnectHost demoParse 400
        { emptyHost with
            store := [("https://one.example", demoEntry)],
            pendingApproval :=
              some { id := 0, dapp := demoDapp2, requestedPermissions := [identityRead] },
            pendingIntent :=
              some { id := 1, action := "send", params := [], session := demoSession1 },
            nextId := 2 }).approvalLog = [] ++ [(0, rejectedConnection)] ∧
    (destroyConnectHost demoParse 400
        { emptyHost with
            store := [("https://one.example", demoEntry)],
            pendingApproval :=
              some { id := 0, dapp := demoDapp2, requestedPermissions := [identityRead] },
            pendingIntent :=
              some { id := 1, action := "send", params := [], session := demoSession1 },
            nextId := 2 }).store = [("https://one.example", demoEntry)] ∧
    destroyConnectHost demoParse 500
        (destroyConnectHost demoParse 400
          { emptyHost with
              store := [("https://one.example", demoEntry)],
              pendingApproval :=
                some { id := 0, dapp := demoDapp2, requestedPermissions := [identityRead] },
              pendingIntent :=
                some { id := 1, action := "send", params := [], session := demoSession1 },
              nextId := 2 }) =
      destroyConnectHost demoParse 400
        { emptyHost with
            store := [("https://one.example", demoEntry)],
            pendingApproval :=
              some { id := 0, dapp := demoDapp2, requestedPermissions := [identityRead] },
            pendingIntent :=
              some { id := 1, action := "send", params := [], session := demoSession1 },
            nextId := 2 } := by
  have h := destroy_teardown demoParse 400
    { emptyHost with
        store := [("https://one.example", demoEntry)],
        pendingApproval :=
          some { id := 0, dapp := demoDapp2, requestedPermissions := [identityRead] },
        pendingIntent :=
          some { id := 1, action := "send", params := [], session := demoSession1 },
        nextId := 2 }
  refine ⟨rfl, ?_, ?_, ?_⟩
  · exact h.2.2.2.2.2.1 { id := 0, dapp := demoDapp2, requestedPermissions := [identityRead] } rfl
  · exact h.2.2.1
  · exact h.2.2.2.2.2.2.2.1 500

/-- Counterexample for C8: persisting a new approval for an origin that
already has an entry does not preserve the original connectedAt. The
stored entry for the origin of demoDapp1 has connectedAt 5; after
saveApprovedOrigin at time 50 the entry has connectedAt 50. -/
theorem upsert_connectedAt_counterexample :
    lookupOrigin [("https://one.example", demoEntry)] "https://one.example" = some demoEntry ∧
    demoEntry.connectedAt = 5 ∧
    (lookupOrigin
        (saveApprovedOrigin [("https://one.example", demoEntry)] "https://one.example"
          demoDapp1 [identityRead] 50)
        "https://one.example").map (fun e => e.connectedAt) = some 50 ∧
    (50 : Nat) ≠ 5 := by
  decide

/-- C8 amended. saveApprovedOrigin replaces the whole entry of the origin:
the permissions and dapp are replaced and BOTH connectedAt and lastSeenAt
are set to now, so the original connectedAt of an existing entry is
overwritten rather than preserved; every other origin is untouched. -/
theorem saveApprovedOrigin_replaces_entry
    (store : OriginStore) (origin : String) (dapp : DAppMetadata)
    (perms : List PermissionScope) (now : Nat) :
    lookupOrigin (saveApprovedOrigin store origin dapp perms now) origin =
      some { permissions := perms, connectedAt := now, lastSeenAt := now, dapp := dapp } ∧
    (∀ k, k ≠ origin →
      lookupOrigin (saveApprovedOrigin store origin dapp perms now) k =
        lookupOrigin store k) := by
  exact ⟨lookupOrigin_setOrigin_self store origin _,
    fun k hk => lookupOrigin_setOrigin_other store origin k _ hk⟩

/-- Witness for C8 at a concrete input: the replacing write for the origin
of demoDapp1 installs the fresh entry and leaves the other stored origin
alone. -/
theorem saveApprovedOrigin_replaces_entry_witness :
    lookupOrigin
        (saveApprovedOrigin
          [("https://one.example", demoEntry), ("https://two.example", demoEntry)]
          "https://one.example" demoDapp1 [identityRead] 50)
        "https://one.example" =
      some { permissions := [identityRead], connectedAt := 50, lastSeenAt := 50,
             dapp := demoDapp1 } ∧
    ("https://two.example" : String) ≠ "https://one.example" ∧
    lookupOrigin
        (saveApprovedOrigin
          [("https://one.example", demoEntry), ("https://two.example", demoEntry)]
          "https://one.example" demoDapp1 [identityRead] 50)
        "https://two.example" =
      lookupOrigin
        [("https://one.example", demoEntry), ("https://two.example", demoEntry)]
        "https://two.example" := by
  have h := saveApprovedOrigin_replaces_entry
    [("https://one.example", demoEntry), ("https://two.example", demoEntry)]
    "https://one.example" demoDapp1 [identityRead] 50
  exact ⟨h.1, by decide, h.2 "https://two.example" (by decide)⟩

/-- Counterexample for C2: resolving the pending approval of demoDapp1
with approved true and grantedPermissions omitting identity-read persists
exactly that set — the stored permissions for the origin do not contain
identity-read, so the host does not silently add it back. -/
theorem identity_scope_counterexample :
    (lookupOrigin
        (resolveConnectApproval demoParse 150
          (onConnectionRequest demoParse 100 emptyHost demoDapp1
            [identityRead, "balance:read"] false).1
          0 true ["balance:read"]).1.store
        "https://one.example").map (fun e => e.permissions) =
      some ["balance:read"] ∧
    identityRead ∉ (["balance:read"] : List PermissionScope) := by
  decide

/-- C2 amended. For every connection approval resolved with approved true
whose dApp url parses, the host persists exactly the grantedPermissions
passed to the resolution: when the resolution omits identity-read the
persisted permissions omit it too — nothing is added back. -/
theorem resolve_persists_granted_verbatim
    (parse : String → Option String) (now : Nat) (st : HostState)
    (pa : PendingConnectApproval) (origin : String)
    (granted : List PermissionScope)
    (hpa : st.pendingApproval = some pa)
    (hparse : parse pa.dapp.url = some origin) :
    (resolveConnectApproval parse now st pa.id true granted).2 = true ∧
    lookupOrigin (resolveConnectApproval parse now st pa.id true granted).1.store origin =
      some { permissions := granted, connectedAt := now, lastSeenAt := now,
             dapp := pa.dapp } := by
  constructor
  · simp [resolveConnectApproval, hpa]
  · simp [resolveConnectApproval, hpa, runApprovalResolve, hparse,
      saveApprovedOrigin, lookupOrigin_setOrigin_self]

/-- Witness for C2 at a concrete input: approving the pending request of
demoDapp1 with the single scope balance-read stores exactly that scope. -/
theorem resolve_persists_granted_verbatim_witness :
    (onConnectionRequest demoParse 100 emptyHost demoDapp1
        [identityRead, "balance:read"] false).1.pendingApproval =
      some { id := 0, dapp := demoDapp1,
             requestedPermissions := [identityRead, "balance:read"] } ∧
    demoParse demoDapp1.url = some "https://one.example" ∧
    lookupOrigin
        (resolveConnectApproval demoParse 150
          (onConnectionRequest demoParse 100 emptyHost demoDapp1
            [identityRead, "balance:read"] false).1
          0 true ["balance:read"]).1.store
        "https://one.example" =
      some { permissions := ["balance:read"], connectedAt := 150, lastSeenAt := 150,
             dapp := demoDapp1 } := by
  have h := resolve_persists_granted_verbatim demoParse 150
    (onConnectionRequest demoParse 100 emptyHost demoDapp1
      [identityRead, "balance:read"] false).1
    { id := 0, dapp := demoDapp1,
      requestedPermissions := [identityRead, "balance:read"] }
    "https://one.example" ["balance:read"] (by decide) (by decide)
  exact ⟨by decide, by decide, h.2⟩

/-- Counterexample for C1: a second non-silent connection request arriving
while the approval of demoDapp1 is pending is not rejected with any
immediate result; instead it parks its own fresh pending approval,
replacing the occupant of the slot (the identifier changes from 0 to 1).
The same holds for a second intent. -/
theorem capacity_conflict_counterexample :
    ((onConnectionRequest demoParse 100 emptyHost demoDapp1 [identityRead]
        false).1.pendingApproval).map (fun p => p.id) = some 0 ∧
    (onConnectionRequest demoParse 200
        (onConnectionRequest demoParse 100 emptyHost demoDapp1 [identityRead] false).1
        demoDapp2 [identityRead] false).2 = none ∧
    ((onConnectionRequest demoParse 200
        (onConnectionRequest demoParse 100 emptyHost demoDapp1 [identityRead] false).1
        demoDapp2 [identityRead] false).1.pendingApproval).map (fun p => p.id) =
      some 1 ∧
    ((onIntent 100 emptyHost "send" [] demoSession1).1.pendingIntent).map
      (fun p => p.id) = some 0 ∧
    (onIntent 200 (onIntent 100 emptyHost "send" [] demoSession1).1
        "sign_message" [] demoSession1).2 = none ∧
    ((onIntent 200 (onIntent 100 emptyHost "send" [] demoSession1).1
        "sign_message" [] demoSession1).1.pendingIntent).map (fun p => p.id) =
      some 1 := by
  decide

/-- C1 amended. A second request arriving while a pending item exists is
not rejected: the connection request (for an unapproved origin, non-silent)
returns no immediate result and overwrites the approval slot with a fresh
pending item, dropping the previous occupant without ever resolving it
(last write wins); onIntent does the same with the intent slot. -/
theorem capacity_conflict_overwrites
    (parse : String → Option String) (now : Nat) (st : HostState)
    (dapp : DAppMetadata) (reqPerms : List PermissionScope)
    (pa : PendingConnectApproval) (pi : PendingConnectIntent)
    (action : String) (params : List (String × String)) (session : ConnectSession)
    (hpa : st.pendingApproval = some pa)
    (hpi : st.pendingIntent = some pi)
    (hfa : pa.id ≠ st.nextId)
    (hfi : pi.id ≠ st.nextId)
    (hA : ∀ o, parse dapp.url = some o → lookupOrigin st.store o = none) :
    (onConnectionRequest parse now st dapp reqPerms false).2 = none ∧
    (onConnectionRequest parse now st dapp reqPerms false).1.pendingApproval =
      some { id := st.nextId, dapp := dapp, requestedPermissions := reqPerms } ∧
    (onConnectionRequest parse now st dapp reqPerms false).1.pendingApproval ≠ some pa ∧
    (onConnectionRequest parse now st dapp reqPerms false).1.approvalLog = st.approvalLog ∧
    (onIntent now st action params session).2 = none ∧
    (onIntent now st action params session).1.pendingIntent =
      some { id := st.nextId, action := action, params := params, session := session } ∧
    (onIntent now st action params session).1.pendingIntent ≠ some pi ∧
    (onIntent now st action params session).1.intentLog = st.intentLog := by
  have hreq := onConnectionRequest_pending parse now st dapp reqPerms hA
  refine ⟨by rw [hreq], by rw [hreq], ?_, by rw [hreq], ?_, ?_, ?_, ?_⟩
  · rw [hreq]
    intro hcontra
    apply hfa
    have := Option.some.inj hcontra
    exact (congrArg PendingConnectApproval.id this).symm
  · simp [onIntent]
  · simp [onIntent]
  · simp [onIntent]
    intro hcontra
    apply hfi
    exact (congrArg PendingConnectIntent.id hcontra).symm
  · simp [onIntent]

/-- Witness for C1 at a concrete input: with item 0 pending in each slot,
the second request and the second intent both return no immediate result
and install the fresh item 1. -/
theorem capacity_conflict_overwrites_witness :
    (onConnectionRequest demoParse 200
        { emptyHost with
            pendingApproval :=
              some { id := 0, dapp := demoDapp1, requestedPermissions := [identityRead] },
            pendingIntent :=
              some { id := 0, action := "send", params := [], session := demoSession1 },
            nextId := 1 }
        demoDapp2 [identityRead] false).2 = none ∧
    (onConnectionRequest demoParse 200
        { emptyHost with
            pendingApproval :=
              some { id := 0, dapp := demoDapp1, requestedPermissions := [identityRead] },
            pendingIntent :=
              some { id := 0, action := "send", params := [], session := demoSession1 },
            nextId := 1 }
        demoDapp2 [identityRead] false).1.pendingApproval ≠
      some { id := 0, dapp := demoDapp1, requestedPermissions := [identityRead] } ∧
    (onIntent 200
        { emptyHost with
            pendingApproval :=
              some { id := 0, dapp := demoDapp1, requestedPermissions := [identityRead] },
            pendingIntent :=
              some { id := 0, action := "send", params := [], session := demoSession1 },
            nextId := 1 }
        "sign_message" [] demoSession1).1.pendingIntent ≠
      some { id := 0, action := "send", params := [], session := demoSession1 } := by
  have h := capacity_conflict_overwrites demoParse 200
    { emptyHost with
        pendingApproval :=
          some { id := 0, dapp := demoDapp1, requestedPermissions := [identityRead] },
        pendingIntent :=
          some { id := 0, action := "send", params := [], session := demoSession1 },
        nextId := 1 }
    demoDapp2 [identityRead]
    { id := 0, dapp := demoDapp1, requestedPermissions := [identityRead] }
    { id := 0, action := "send", params := [], session := demoSession1 }
    "sign_message" [] demoSession1
    rfl rfl (by decide) (by decide) (by intro o ho; rfl)
  exact ⟨h.1, h.2.2.1, h.2.2.2.2.2.2.1⟩

/-- Trace for the C3 counterexample, step 1: demoDapp1 requests at time
100, parking pending item 0 and scheduling a timer for it at 120100. -/
def c3State1 : HostState :=
  (onConnectionRequest demoParse 100 emptyHost demoDapp1 [identityRead] false).1

/-- Step 2: the user explicitly rejects item 0 at time 150; the slot is
cleared but the timer created for item 0 stays scheduled. -/
def c3State2 : HostState := (resolveConnectApproval demoParse 150 c3State1 0 false []).1

/-- Step 3: demoDapp2 requests at time 200, parking pending item 1. -/
def c3State3 : HostState :=
  (onConnectionRequest demoParse 200 c3State2 demoDapp2 [identityRead] false).1

/-- Step 4: the timer created for item 0 fires at its deadline 120100. -/
def c3State4 : HostState :=
  fireApprovalTimer demoParse 120100 c3State3 { createdFor := 0, firesAt := 120100 }

/-- Counterexample for C3: the timer created for pending item 0 is still
scheduled after item 0 was explicitly resolved, and when it fires while
the slot holds item 1 it resolves item 1 — a pending item with a different
identifier than the one the timer was created for — because the timeout
callback checks only that the slot is occupied, never the identifier. -/
theorem timer_identifier_check_counterexample :
    c3State1.approvalTimers = [{ createdFor := 0, firesAt := 120100 }] ∧
    ({ createdFor := 0, firesAt := 120100 } : ApprovalTimer) ∈ c3State3.approvalTimers ∧
    (c3State3.pendingApproval.map (fun p => p.id)) = some 1 ∧
    c3State4.approvalLog =
      [(0, { approved := false, grantedPermissions := [] }),
       (1, { approved := false, grantedPermissions := [] })] ∧
    c3State4.pendingApproval = none := by
  decide

/-- C3 amended. Only the explicit resolution calls check the slot
identifier: resolveConnectApproval and resolveConnectIntent with an
identifier different from the current occupant (or with an empty slot)
return false and change nothing. The timeout callbacks check only that the
slot is occupied and resolve the current occupant with the default
rejection whatever pending item the fired timer was created for, so a
timer created for one pending item can resolve a later item with a
different identifier. -/
theorem slot_resolution_discipline
    (parse : String → Option String) (now : Nat) (st : HostState)
    (id : Nat) (approved : Bool) (granted : List PermissionScope)
    (r : IntentResult) (pa : PendingConnectApproval) (pi : PendingConnectIntent)
    (t : ApprovalTimer) (u : IntentTimer)
    (hpa : st.pendingApproval = some pa)
    (hpi : st.pendingIntent = some pi)
    (hida : pa.id ≠ id)
    (hidi : pi.id ≠ id) :
    resolveConnectApproval parse now st id approved granted = (st, false) ∧
    resolveConnectIntent st id r = (st, false) ∧
    fireApprovalTimer parse now st t =
      { st with
          approvalTimers := st.approvalTimers.erase t,
          pendingApproval := none,
          approvalLog := st.approvalLog ++ [(pa.id, rejectedConnection)] } ∧
    fireIntentTimer st u =
      { st with
          intentTimers := st.intentTimers.erase u,
          pendingIntent := none,
          intentLog := st.intentLog ++ [(pi.id, userRejectedIntent)] } := by
  refine ⟨?_, ?_, ?_, ?_⟩
  · simp [resolveConnectApproval, hpa, hida]
  · simp [resolveConnectIntent, hpi, hidi]
  · exact fireApprovalTimer_occupied parse now st t pa hpa
  · exact fireIntentTimer_occupied st u pi hpi

/-- Witness for C3 at a concrete input: with item 1 occupying each slot, a
stale explicit resolution for identifier 0 is a no-op returning false, and
a timer created for item 0 nevertheless resolves item 1 when it fires. -/
theorem slot_resolution_discipline_witness :
    resolveConnectApproval demoParse 300
        { emptyHost with
            pendingApproval :=
              some { id := 1, dapp := demoDapp2, requestedPermissions := [identityRead] },
            pendingIntent :=
              some { id := 1, action := "send", params := [], session := demoSession1 },
            nextId := 2 }
        0 true [identityRead] =
      ({ emptyHost with
          pendingApproval :=
            some { id := 1, dapp := demoDapp2, requestedPermissions := [identityRead] },
          pendingIntent :=
            some { id := 1, action := "send", params := [], session := demoSession1 },
          nextId := 2 }, false) ∧
    (fireApprovalTimer demoParse 300
        { emptyHost with
            pendingApproval :=
              some { id := 1, dapp := demoDapp2, requestedPermissions := [identityRead] },
            pendingIntent :=
              some { id := 1, action := "send", params := [], session := demoSession1 },
            nextId := 2 }
        { createdFor := 0, firesAt := 300 }).approvalLog =
      emptyHost.approvalLog ++ [(1, rejectedConnection)] := by
  have h := slot_resolution_discipline demoParse 300
    { emptyHost with
        pendingApproval :=
          some { id := 1, dapp := demoDapp2, requestedPermissions := [identityRead] },
        pendingIntent :=
          some { id := 1, action := "send", params := [], session := demoSession1 },
        nextId := 2 }
    0 true [identityRead] userRejectedIntent
    { id := 1, dapp := demoDapp2, requestedPermissions := [identityRead] }
    { id := 1, action := "send", params := [], session := demoSession1 }
    { createdFor := 0, firesAt := 300 } { createdFor := 0, firesAt := 300 }
    rfl rfl (by decide) (by decide)
  refine ⟨h.1, ?_⟩
  rw [h.2.2.1]

end SphereConnect
